import Mathlib

/-!
# Verification of `runtime/mercury_signal.c`

Shallow embedding of the Mercury runtime's signal-handler setup module
(`MR_setup_signal`, `MR_setup_signal_no_restart`, `MR_do_setup_signal`,
`MR_get_signal_action`, `MR_set_signal_action`) together with proofs of the
specified properties.

The C module is compiled against a build-time configuration: either the
structured `sigaction` facility is available (`MR_HAVE_SIGACTION` defined) or
only the primitive `signal` facility is.  The preprocessor therefore produces
one of two programs; we embed both, in the namespaces `HaveSigaction` and
`NoSigaction`.  The build-time flag values (`SA_RESTART`, `SA_SIGINFO`, both
defined as `0` when the platform lacks them) and the behaviour of the
underlying operating-system calls are gathered in a `Platform` record.  The
process-wide signal-disposition table is threaded explicitly as state, and
the fatal `MR_perror`/`exit(1)` paths are represented by the `fatal`
constructor of an `Outcome` type.
-/

/-- Handler entry points (`MR_Code *`) are modelled as addresses.  The
primitive facility's error sentinel `SIG_ERR` is `(void *) -1`, so we use
`Int` and reserve `-1` for it; the null pointer is `0`. -/
abbrev MR_Code := Int

/-- The `SIG_ERR` sentinel returned by `signal` on failure. -/
def SIG_ERR : MR_Code := -1

/-- Build-time configuration and operating-system behaviour, as seen by
`mercury_signal.c`:

* `MR_HAVE_SIGCONTEXT_STRUCT`: whether the legacy `sigcontext`-structure
  condition holds (extended-context delivery is incompatible with the
  handler's calling convention).
* `SA_RESTART`, `SA_SIGINFO`: the numeric flag values; the module defines
  them as `0` when the platform does not provide them.
* `validSig`: which signal numbers the underlying facility accepts;
  registration and query calls fail on the others.
* `sigemptysetOk`: whether `sigemptyset` succeeds on this platform, with
  `sigemptysetErrno` the error code it leaves when it fails.
* `sigactionErrno` / `signalErrno`: the error code left by a failing
  `sigaction` / `signal` call.
* `strerror`: the platform's description of an error code, used when
  building diagnostics. -/
structure Platform where
  MR_HAVE_SIGCONTEXT_STRUCT : Bool
  SA_RESTART : Nat
  SA_SIGINFO : Nat
  validSig : Int → Bool
  sigemptysetOk : Bool
  sigemptysetErrno : Nat
  sigactionErrno : Nat
  signalErrno : Nat
  strerror : Nat → String

/-- Modelled from the spec: `MR_perror` is the runtime's report primitive,
implemented outside this module.  Per the spec's error-handling design it
prints a diagnostic built from the given context string plus the platform's
description of the last error (`errno`). -/
def MR_perror (p : Platform) (errno : Nat) (msg : String) : String :=
  msg ++ ": " ++ p.strerror errno

/-- Result of running one of the module's operations: either the operation
returns normally with the new process state and a value, or the process has
printed a diagnostic and terminated via `exit` with the given status. -/
inductive Outcome (σ : Type) (α : Type) where
  | ok (s : σ) (a : α)
  | fatal (s : σ) (diagnostic : String) (status : Nat)
deriving Repr

/-- Holds when the outcome is a normal return satisfying `P`; a terminated
process satisfies it vacuously. -/
def Outcome.onOk {σ α : Type} (o : Outcome σ α) (P : σ → α → Prop) : Prop :=
  match o with
  | .ok s a => P s a
  | .fatal _ _ _ => True

/-- Holds when the outcome is a normal return satisfying `P`; false for a
terminated process. -/
def Outcome.succeedsWith {σ α : Type} (o : Outcome σ α) (P : σ → α → Prop) : Prop :=
  match o with
  | .ok s a => P s a
  | .fatal _ _ _ => False

/-- Holds when the outcome is a termination whose final state, diagnostic and
exit status satisfy `P`; a normal return satisfies it vacuously. -/
def Outcome.onFatal {σ α : Type} (o : Outcome σ α) (P : σ → String → Nat → Prop) : Prop :=
  match o with
  | .ok _ _ => True
  | .fatal s d st => P s d st

/-! The program compiled when `MR_HAVE_SIGACTION` is defined: the structured
facility.  `MR_signal_action` is `struct sigaction`. -/

namespace HaveSigaction

/-- The descriptor `struct sigaction`: flag word `sa_flags`, blocked-signal
mask `sa_mask` (a set of signal numbers; `sigemptyset` clears it to the empty
list) and the handler reference stored in `MR_SIGACTION_FIELD`. -/
structure MR_signal_action where
  sa_flags : Nat
  sa_mask : List Int
  MR_SIGACTION_FIELD : MR_Code

/-- Process-wide state: the signal-disposition table and `errno`. -/
structure State where
  dispositions : Int → MR_signal_action
  errno : Nat

/-- `MR_set_signal_action`: `sigaction(sig, act, NULL)`; on a nonzero return
report `error_message` and `exit(1)`. -/
def MR_set_signal_action (p : Platform) (s : State) (sig : Int)
    (act : MR_signal_action) (error_message : String) : Outcome State Unit :=
  if p.validSig sig then
    .ok { s with dispositions := fun x => if x = sig then act else s.dispositions x } ()
  else
    let s1 := { s with errno := p.sigactionErrno }
    .fatal s1 (MR_perror p s1.errno error_message) 1

/-- `MR_get_signal_action`: `sigaction(sig, NULL, act)`; on a nonzero return
report `error_message` and `exit(1)`. -/
def MR_get_signal_action (p : Platform) (s : State) (sig : Int)
    (error_message : String) : Outcome State MR_signal_action :=
  if p.validSig sig then
    .ok s (s.dispositions sig)
  else
    let s1 := { s with errno := p.sigactionErrno }
    .fatal s1 (MR_perror p s1.errno error_message) 1

/-- `MR_do_setup_signal` under `MR_HAVE_SIGACTION`: build the descriptor
(`sa_flags` from `restart` and `need_info`, the latter suppressed when
`MR_HAVE_SIGCONTEXT_STRUCT` holds), clear the mask with `sigemptyset`
(fatal on failure, via `MR_perror("cannot set clear signal mask")` and
`exit(1)`), set `errno = 0`, store the handler, and delegate to
`MR_set_signal_action`. -/
def MR_do_setup_signal (p : Platform) (s : State) (sig : Int) (handler : MR_Code)
    (need_info : Bool) (restart : Bool) (error_message : String) :
    Outcome State Unit :=
  let flags0 : Nat := if restart then p.SA_RESTART else 0
  let flags : Nat :=
    if need_info then
      if p.MR_HAVE_SIGCONTEXT_STRUCT then flags0 else flags0 ||| p.SA_SIGINFO
    else flags0
  if p.sigemptysetOk then
    let s1 := { s with errno := 0 }
    MR_set_signal_action p s1 sig
      { sa_flags := flags, sa_mask := [], MR_SIGACTION_FIELD := handler }
      error_message
  else
    let s1 := { s with errno := p.sigemptysetErrno }
    .fatal s1 (MR_perror p s1.errno "cannot set clear signal mask") 1

/-- `MR_setup_signal`: `MR_do_setup_signal` with `restart = TRUE`. -/
def MR_setup_signal (p : Platform) (s : State) (sig : Int) (handler : MR_Code)
    (need_info : Bool) (error_message : String) : Outcome State Unit :=
  MR_do_setup_signal p s sig handler need_info true error_message

/-- `MR_setup_signal_no_restart`: `MR_do_setup_signal` with `restart = FALSE`. -/
def MR_setup_signal_no_restart (p : Platform) (s : State) (sig : Int)
    (handler : MR_Code) (need_info : Bool) (error_message : String) :
    Outcome State Unit :=
  MR_do_setup_signal p s sig handler need_info false error_message

end HaveSigaction

/-! The program compiled when `MR_HAVE_SIGACTION` is not defined: the
primitive facility.  `MR_signal_action` is just the handler pointer. -/

namespace NoSigaction

/-- Process-wide state: the signal-disposition table (handler pointer per
signal) and `errno`. -/
structure State where
  dispositions : Int → MR_Code
  errno : Nat

/-- The `signal(sig, handler)` call: install `handler` as the disposition for
`sig` and return the previous disposition; on an invalid signal return
`SIG_ERR` with `errno` set and the table unchanged. -/
def signal_call (p : Platform) (s : State) (sig : Int) (handler : MR_Code) :
    State × MR_Code :=
  if p.validSig sig then
    ({ s with dispositions := fun x => if x = sig then handler else s.dispositions x },
     s.dispositions sig)
  else
    ({ s with errno := p.signalErrno }, SIG_ERR)

/-- `MR_set_signal_action` without `MR_HAVE_SIGACTION`:
`signal(sig, *act)`; on `SIG_ERR` report `error_message` and `exit(1)`. -/
def MR_set_signal_action (p : Platform) (s : State) (sig : Int)
    (act : MR_Code) (error_message : String) : Outcome State Unit :=
  let r := signal_call p s sig act
  if r.2 = SIG_ERR then
    .fatal r.1 (MR_perror p r.1.errno error_message) 1
  else
    .ok r.1 ()

/-- `MR_get_signal_action` without `MR_HAVE_SIGACTION`:
`*act = signal(sig, NULL)`; on `SIG_ERR` report `error_message` and
`exit(1)`.  Note that the query itself installs the null handler. -/
def MR_get_signal_action (p : Platform) (s : State) (sig : Int)
    (error_message : String) : Outcome State MR_Code :=
  let r := signal_call p s sig 0
  if r.2 = SIG_ERR then
    .fatal r.1 (MR_perror p r.1.errno error_message) 1
  else
    .ok r.1 r.2

/-- `MR_do_setup_signal` without `MR_HAVE_SIGACTION`: `act = handler`, then
delegate to `MR_set_signal_action`; `need_info` and `restart` are unused. -/
def MR_do_setup_signal (p : Platform) (s : State) (sig : Int) (handler : MR_Code)
    (need_info : Bool) (restart : Bool) (error_message : String) :
    Outcome State Unit :=
  MR_set_signal_action p s sig handler error_message

/-- `MR_setup_signal`: `MR_do_setup_signal` with `restart = TRUE`. -/
def MR_setup_signal (p : Platform) (s : State) (sig : Int) (handler : MR_Code)
    (need_info : Bool) (error_message : String) : Outcome State Unit :=
  MR_do_setup_signal p s sig handler need_info true error_message

/-- `MR_setup_signal_no_restart`: `MR_do_setup_signal` with `restart = FALSE`. -/
def MR_setup_signal_no_restart (p : Platform) (s : State) (sig : Int)
    (handler : MR_Code) (need_info : Bool) (error_message : String) :
    Outcome State Unit :=
  MR_do_setup_signal p s sig handler need_info false error_message

end NoSigaction

/-! ## Concrete platforms and states, used to witness the theorems -/

/-- A concrete platform: structured flags present (`SA_RESTART = 8`,
`SA_SIGINFO = 4`), no legacy `sigcontext` structure, signals `1..31` valid,
`sigemptyset` succeeding. -/
def p0 : Platform where
  MR_HAVE_SIGCONTEXT_STRUCT := false
  SA_RESTART := 8
  SA_SIGINFO := 4
  validSig := fun s => decide (1 ≤ s ∧ s ≤ 31)
  sigemptysetOk := true
  sigemptysetErrno := 22
  sigactionErrno := 22
  signalErrno := 22
  strerror := fun _ => "Invalid argument"

/-- `p0` with the legacy `sigcontext`-structure condition holding. -/
def p1 : Platform := { p0 with MR_HAVE_SIGCONTEXT_STRUCT := true }

/-- `p0` with a failing `sigemptyset`. -/
def p2 : Platform := { p0 with sigemptysetOk := false }

/-- A concrete structured-facility state: every disposition default. -/
def saS0 : HaveSigaction.State where
  dispositions := fun _ =>
    { sa_flags := 0, sa_mask := [], MR_SIGACTION_FIELD := 0 }
  errno := 0

/-- A concrete primitive-facility state: signal `2` has handler `42`
installed, everything else default. -/
def sigS0 : NoSigaction.State where
  dispositions := fun x => if x = 2 then 42 else 0
  errno := 0

/-! ## Bitwise helper lemmas -/

/-- Or-ing extra bits in never clears the original ones. -/
theorem Nat.lor_and_absorb (a b : Nat) : (a ||| b) &&& a = a := by
  apply Nat.eq_of_testBit_eq
  intro i
  simp only [Nat.testBit_and, Nat.testBit_or]
  cases a.testBit i <;> simp

/-- Disjointness of flag words is symmetric. -/
theorem Nat.and_eq_zero_symm {a b : Nat} (h : a &&& b = 0) : b &&& a = 0 := by
  rwa [Nat.and_comm]

/-! ## Characterization of the fatal paths (shared helper lemmas) -/

/-- Any fatal outcome of the structured `MR_set_signal_action` carries the
`MR_perror` diagnostic for the caller's message, exit status `1`, and an
unchanged disposition table. -/
theorem sa_set_fatal_char (p : Platform) (s : HaveSigaction.State) (sig : Int)
    (act : HaveSigaction.MR_signal_action) (e : String) :
    (HaveSigaction.MR_set_signal_action p s sig act e).onFatal
      (fun s1 d st => d = MR_perror p s1.errno e ∧ st = 1
        ∧ s1.dispositions = s.dispositions) := by
  unfold HaveSigaction.MR_set_signal_action
  split <;> simp [Outcome.onFatal]

/-- Any fatal outcome of the structured `MR_get_signal_action` carries the
`MR_perror` diagnostic for the caller's message, exit status `1`, and an
unchanged disposition table. -/
theorem sa_get_fatal_char (p : Platform) (s : HaveSigaction.State) (sig : Int)
    (e : String) :
    (HaveSigaction.MR_get_signal_action p s sig e).onFatal
      (fun s1 d st => d = MR_perror p s1.errno e ∧ st = 1
        ∧ s1.dispositions = s.dispositions) := by
  unfold HaveSigaction.MR_get_signal_action
  split <;> simp [Outcome.onFatal]

/-- Any fatal outcome of the structured `MR_do_setup_signal` carries exit
status `1` and either the caller's diagnostic (registration rejected) or the
fixed mask-clearing diagnostic, with the disposition table unchanged. -/
theorem sa_do_setup_fatal_char (p : Platform) (s : HaveSigaction.State)
    (sig : Int) (h : MR_Code) (ni r : Bool) (e : String) :
    (HaveSigaction.MR_do_setup_signal p s sig h ni r e).onFatal
      (fun s1 d st =>
        (d = MR_perror p s1.errno e
          ∨ d = MR_perror p s1.errno "cannot set clear signal mask")
        ∧ st = 1 ∧ s1.dispositions = s.dispositions) := by
  unfold HaveSigaction.MR_do_setup_signal HaveSigaction.MR_set_signal_action
  by_cases hm : p.sigemptysetOk = true
  · by_cases hv : p.validSig sig = true <;> simp [hm, hv, Outcome.onFatal]
  · simp [hm, Outcome.onFatal]

/-- Any fatal outcome of the primitive `MR_set_signal_action` carries the
`MR_perror` diagnostic for the caller's message, exit status `1`, and an
unchanged disposition table. -/
theorem sig_set_fatal_char (p : Platform) (s : NoSigaction.State) (sig : Int)
    (act : MR_Code) (e : String) :
    (NoSigaction.MR_set_signal_action p s sig act e).onFatal
      (fun s1 d st => d = MR_perror p s1.errno e ∧ st = 1) := by
  by_cases hv : p.validSig sig = true
  · by_cases hd : s.dispositions sig = SIG_ERR <;>
      simp [NoSigaction.MR_set_signal_action, NoSigaction.signal_call, hv, hd,
        Outcome.onFatal]
  · simp [NoSigaction.MR_set_signal_action, NoSigaction.signal_call, hv,
      Outcome.onFatal]

/-- Any fatal outcome of the primitive `MR_get_signal_action` carries the
`MR_perror` diagnostic for the caller's message and exit status `1`. -/
theorem sig_get_fatal_char (p : Platform) (s : NoSigaction.State) (sig : Int)
    (e : String) :
    (NoSigaction.MR_get_signal_action p s sig e).onFatal
      (fun s1 d st => d = MR_perror p s1.errno e ∧ st = 1) := by
  by_cases hv : p.validSig sig = true
  · by_cases hd : s.dispositions sig = SIG_ERR <;>
      simp [NoSigaction.MR_get_signal_action, NoSigaction.signal_call, hv, hd,
        Outcome.onFatal]
  · simp [NoSigaction.MR_get_signal_action, NoSigaction.signal_call, hv,
      Outcome.onFatal]

/-! ## The claims -/

/-- C7: `MR_setup_signal_no_restart` with `need_info = true` behaves
identically, on both facilities, to `MR_do_setup_signal` invoked with
`need_info = true` and `restart = false`: same descriptor, same outcome. -/
theorem setup_signal_no_restart_is_install_without_restart (p : Platform)
    (ssa : HaveSigaction.State) (ssig : NoSigaction.State) (sig : Int)
    (h : MR_Code) (e : String) :
    HaveSigaction.MR_setup_signal_no_restart p ssa sig h true e =
      HaveSigaction.MR_do_setup_signal p ssa sig h true false e
    ∧ NoSigaction.MR_setup_signal_no_restart p ssig sig h true e =
      NoSigaction.MR_do_setup_signal p ssig sig h true false e :=
  ⟨rfl, rfl⟩

/-- C9: when the structured facility is unavailable, every install passes
exactly the handler reference to the set operation, and the `need_info` and
`restart` arguments have no effect on the installed disposition. -/
theorem primitive_descriptor_is_exactly_handler (p : Platform)
    (s : NoSigaction.State) (sig : Int) (h : MR_Code) (ni r ni2 r2 : Bool)
    (e : String) :
    NoSigaction.MR_do_setup_signal p s sig h ni r e =
      NoSigaction.MR_set_signal_action p s sig h e
    ∧ NoSigaction.MR_do_setup_signal p s sig h ni r e =
      NoSigaction.MR_do_setup_signal p s sig h ni2 r2 e :=
  ⟨rfl, rfl⟩

/-- C6: on the structured facility, whenever `sigemptyset` succeeds the
descriptor handed to `MR_set_signal_action` has an empty blocked-signal mask;
when it fails the process terminates with status `1` before any registration,
leaving every disposition unchanged. -/
theorem mask_cleared_empty_before_registration (p : Platform)
    (s : HaveSigaction.State) (sig : Int) (h : MR_Code) (ni r : Bool)
    (e : String) :
    if p.sigemptysetOk = true then
      ∃ act : HaveSigaction.MR_signal_action,
        HaveSigaction.MR_do_setup_signal p s sig h ni r e =
          HaveSigaction.MR_set_signal_action p { s with errno := 0 } sig act e
        ∧ act.sa_mask = [] ∧ act.MR_SIGACTION_FIELD = h
    else
      HaveSigaction.MR_do_setup_signal p s sig h ni r e =
        .fatal { s with errno := p.sigemptysetErrno }
          (MR_perror p p.sigemptysetErrno "cannot set clear signal mask") 1
      ∧ ∀ x, ({ s with errno := p.sigemptysetErrno } : HaveSigaction.State).dispositions x
          = s.dispositions x := by
  by_cases hm : p.sigemptysetOk = true
  · rw [if_pos hm]
    simp only [HaveSigaction.MR_do_setup_signal, hm, if_true]
    exact ⟨_, rfl, rfl, rfl⟩
  · rw [if_neg hm]
    refine ⟨?_, fun x => rfl⟩
    simp only [HaveSigaction.MR_do_setup_signal]
    rw [if_neg hm]

/-- C1: when the legacy `sigcontext`-structure condition holds, an install
with `need_info = true` builds a descriptor whose `SA_SIGINFO` bit is never
set, for every state (hence however many calls were made before) and every
value of the other arguments.  Flag words are assumed disjoint, as on any
real platform. -/
theorem sigcontext_struct_excludes_siginfo (p : Platform)
    (s : HaveSigaction.State) (sig : Int) (h : MR_Code) (restart : Bool)
    (e : String) (hc : p.MR_HAVE_SIGCONTEXT_STRUCT = true)
    (hdisj : p.SA_RESTART &&& p.SA_SIGINFO = 0)
    (hm : p.sigemptysetOk = true) :
    ∃ act : HaveSigaction.MR_signal_action,
      HaveSigaction.MR_do_setup_signal p s sig h true restart e =
        HaveSigaction.MR_set_signal_action p { s with errno := 0 } sig act e
      ∧ act.sa_flags &&& p.SA_SIGINFO = 0
      ∧ act.MR_SIGACTION_FIELD = h := by
  simp only [HaveSigaction.MR_do_setup_signal, hc, hm, if_true]
  refine ⟨_, rfl, ?_, rfl⟩
  cases restart
  · simp
  · simpa using hdisj

/-- Witness for C1 at a concrete platform and state. -/
theorem sigcontext_struct_excludes_siginfo_witness :
    (p1.MR_HAVE_SIGCONTEXT_STRUCT = true ∧ p1.SA_RESTART &&& p1.SA_SIGINFO = 0
      ∧ p1.sigemptysetOk = true)
    ∧ ∃ act : HaveSigaction.MR_signal_action,
      HaveSigaction.MR_do_setup_signal p1 saS0 2 42 true true "ctx" =
        HaveSigaction.MR_set_signal_action p1 { saS0 with errno := 0 } 2 act "ctx"
      ∧ act.sa_flags &&& p1.SA_SIGINFO = 0
      ∧ act.MR_SIGACTION_FIELD = 42 :=
  ⟨⟨rfl, by decide, rfl⟩,
    sigcontext_struct_excludes_siginfo p1 saS0 2 42 true "ctx" rfl (by decide) rfl⟩

/-- C4: on a platform exposing a nonzero restart flag (with the flag words
disjoint), every install builds a descriptor whose `SA_RESTART` bit is set
exactly when the `restart` argument is true. -/
theorem restart_flag_tracks_restart_argument (p : Platform)
    (s : HaveSigaction.State) (sig : Int) (h : MR_Code) (ni restart : Bool)
    (e : String) (hr : p.SA_RESTART ≠ 0)
    (hdisj : p.SA_RESTART &&& p.SA_SIGINFO = 0)
    (hm : p.sigemptysetOk = true) :
    ∃ act : HaveSigaction.MR_signal_action,
      HaveSigaction.MR_do_setup_signal p s sig h ni restart e =
        HaveSigaction.MR_set_signal_action p { s with errno := 0 } sig act e
      ∧ act.sa_flags &&& p.SA_RESTART =
          (if restart then p.SA_RESTART else 0)
      ∧ act.MR_SIGACTION_FIELD = h := by
  simp only [HaveSigaction.MR_do_setup_signal, hm, if_true]
  refine ⟨_, rfl, ?_, rfl⟩
  cases restart <;> cases ni <;> cases hcs : p.MR_HAVE_SIGCONTEXT_STRUCT <;>
    simp [hcs, Nat.lor_and_absorb, Nat.and_eq_zero_symm hdisj, Nat.zero_and,
      Nat.and_self, Nat.zero_or]

/-- Witness for C4 at a concrete platform and state. -/
theorem restart_flag_tracks_restart_argument_witness :
    (p0.SA_RESTART ≠ 0 ∧ p0.SA_RESTART &&& p0.SA_SIGINFO = 0
      ∧ p0.sigemptysetOk = true)
    ∧ ∃ act : HaveSigaction.MR_signal_action,
      HaveSigaction.MR_do_setup_signal p0 saS0 2 42 true true "ctx" =
        HaveSigaction.MR_set_signal_action p0 { saS0 with errno := 0 } 2 act "ctx"
      ∧ act.sa_flags &&& p0.SA_RESTART = (if true then p0.SA_RESTART else 0)
      ∧ act.MR_SIGACTION_FIELD = 42 :=
  ⟨⟨by decide, by decide, rfl⟩,
    restart_flag_tracks_restart_argument p0 saS0 2 42 true true "ctx" (by decide)
      (by decide) rfl⟩

/-- Weakening the property asserted of a fatal outcome. -/
theorem Outcome.onFatal_mono {σ α : Type} {o : Outcome σ α}
    {P Q : σ → String → Nat → Prop} (h : o.onFatal P)
    (imp : ∀ s d st, P s d st → Q s d st) : o.onFatal Q := by
  cases o
  · trivial
  · exact imp _ _ _ h

/-- C5 counterexample: the mask-clearing failure path of `MR_do_setup_signal`
prints a diagnostic built from the fixed message
`"cannot set clear signal mask"`, not from the caller-supplied error-context
string, so the claim as stated fails at this input. -/
theorem mask_clear_diagnostic_not_callers_context :
    HaveSigaction.MR_do_setup_signal p2 saS0 2 42 true true "bad signal" =
      .fatal { saS0 with errno := p2.sigemptysetErrno }
        (MR_perror p2 p2.sigemptysetErrno "cannot set clear signal mask") 1
    ∧ MR_perror p2 p2.sigemptysetErrno "cannot set clear signal mask" ≠
        MR_perror p2 p2.sigemptysetErrno "bad signal" :=
  ⟨rfl, by decide⟩

/-- C5 (amended): every failure path of install, getCurrentDisposition and
setDisposition prints an `MR_perror` diagnostic — built from the
caller-supplied error-context string for the get/set rejections, and from
the fixed message `"cannot set clear signal mask"` for the blocked-mask
clearing failure — and terminates the process with a non-zero status; no
failure is returned to the caller as an inspectable value (the only
non-`ok` outcome is process termination). -/
theorem error_paths_report_and_terminate_nonzero :
    ∀ (p : Platform) (ssa : HaveSigaction.State) (ssig : NoSigaction.State)
      (sig : Int) (act : HaveSigaction.MR_signal_action) (hc : MR_Code)
      (ni r : Bool) (e : String),
      (HaveSigaction.MR_set_signal_action p ssa sig act e).onFatal
        (fun s1 d st => d = MR_perror p s1.errno e ∧ st ≠ 0)
      ∧ (HaveSigaction.MR_get_signal_action p ssa sig e).onFatal
        (fun s1 d st => d = MR_perror p s1.errno e ∧ st ≠ 0)
      ∧ (HaveSigaction.MR_do_setup_signal p ssa sig hc ni r e).onFatal
        (fun s1 d st =>
          (d = MR_perror p s1.errno e
            ∨ d = MR_perror p s1.errno "cannot set clear signal mask")
          ∧ st ≠ 0)
      ∧ (NoSigaction.MR_set_signal_action p ssig sig hc e).onFatal
        (fun s1 d st => d = MR_perror p s1.errno e ∧ st ≠ 0)
      ∧ (NoSigaction.MR_get_signal_action p ssig sig e).onFatal
        (fun s1 d st => d = MR_perror p s1.errno e ∧ st ≠ 0)
      ∧ (NoSigaction.MR_do_setup_signal p ssig sig hc ni r e).onFatal
        (fun s1 d st => d = MR_perror p s1.errno e ∧ st ≠ 0) := by
  intro p ssa ssig sig act hc ni r e
  refine ⟨?_, ?_, ?_, ?_, ?_, ?_⟩
  · exact Outcome.onFatal_mono (sa_set_fatal_char p ssa sig act e)
      (fun s d st hh => ⟨hh.1, by simp [hh.2.1]⟩)
  · exact Outcome.onFatal_mono (sa_get_fatal_char p ssa sig e)
      (fun s d st hh => ⟨hh.1, by simp [hh.2.1]⟩)
  · exact Outcome.onFatal_mono (sa_do_setup_fatal_char p ssa sig hc ni r e)
      (fun s d st hh => ⟨hh.1, by simp [hh.2.1]⟩)
  · exact Outcome.onFatal_mono (sig_set_fatal_char p ssig sig hc e)
      (fun s d st hh => ⟨hh.1, by simp [hh.2]⟩)
  · exact Outcome.onFatal_mono (sig_get_fatal_char p ssig sig e)
      (fun s d st hh => ⟨hh.1, by simp [hh.2]⟩)
  · exact Outcome.onFatal_mono (sig_set_fatal_char p ssig sig hc e)
      (fun s d st hh => ⟨hh.1, by simp [hh.2]⟩)

/-- C10: every fatal path in the module — the mask-clear failure inside
`MR_do_setup_signal`, a query failure in `MR_get_signal_action` and an
installation failure in `MR_set_signal_action`, on both facilities — exits
with status exactly `1`; moreover a concrete rejected query (signal `0`,
context `"bad signal"`) does terminate with status `1`. -/
theorem fatal_paths_exit_status_one :
    (∀ (p : Platform) (ssa : HaveSigaction.State) (ssig : NoSigaction.State)
      (sig : Int) (act : HaveSigaction.MR_signal_action) (hc : MR_Code)
      (ni r : Bool) (e : String),
      (HaveSigaction.MR_do_setup_signal p ssa sig hc ni r e).onFatal
        (fun _ _ st => st = 1)
      ∧ (HaveSigaction.MR_get_signal_action p ssa sig e).onFatal
        (fun _ _ st => st = 1)
      ∧ (HaveSigaction.MR_set_signal_action p ssa sig act e).onFatal
        (fun _ _ st => st = 1)
      ∧ (NoSigaction.MR_do_setup_signal p ssig sig hc ni r e).onFatal
        (fun _ _ st => st = 1)
      ∧ (NoSigaction.MR_get_signal_action p ssig sig e).onFatal
        (fun _ _ st => st = 1)
      ∧ (NoSigaction.MR_set_signal_action p ssig sig hc e).onFatal
        (fun _ _ st => st = 1))
    ∧ NoSigaction.MR_get_signal_action p0 sigS0 0 "bad signal" =
        .fatal { sigS0 with errno := p0.signalErrno }
          (MR_perror p0 p0.signalErrno "bad signal") 1 := by
  constructor
  · intro p ssa ssig sig act hc ni r e
    refine ⟨?_, ?_, ?_, ?_, ?_, ?_⟩
    · exact Outcome.onFatal_mono (sa_do_setup_fatal_char p ssa sig hc ni r e)
        (fun s d st hh => hh.2.1)
    · exact Outcome.onFatal_mono (sa_get_fatal_char p ssa sig e)
        (fun s d st hh => hh.2.1)
    · exact Outcome.onFatal_mono (sa_set_fatal_char p ssa sig act e)
        (fun s d st hh => hh.2.1)
    · exact Outcome.onFatal_mono (sig_set_fatal_char p ssig sig hc e)
        (fun s d st hh => hh.2)
    · exact Outcome.onFatal_mono (sig_get_fatal_char p ssig sig e)
        (fun s d st hh => hh.2)
    · exact Outcome.onFatal_mono (sig_set_fatal_char p ssig sig hc e)
        (fun s d st hh => hh.2)
  · rfl

/-- C2 counterexample: on the primitive facility, a successful
`MR_get_signal_action` for signal `2` does not leave the disposition for `2`
unchanged — the query reinstalls the null handler, so the installed handler
`42` is replaced by `0`. -/
theorem get_resets_disposition_on_primitive_facility :
    Outcome.succeedsWith (NoSigaction.MR_get_signal_action p0 sigS0 2 "ctx")
      (fun s1 r => r = sigS0.dispositions 2 ∧ s1.dispositions 2 = 0
        ∧ s1.dispositions 2 ≠ sigS0.dispositions 2)
    ∧ sigS0.dispositions 2 = 42 :=
  ⟨⟨rfl, rfl, by decide⟩, rfl⟩

/-- C2 (amended): a successful `MR_get_signal_action` returns the currently
installed descriptor for `sig`.  On the structured facility it leaves every
disposition (for `sig` and for every other signal) unchanged; on the
primitive facility the query itself reinstalls the null handler for `sig`
— its disposition is reset to `0` — while every other signal's disposition
is unchanged. -/
theorem get_signal_action_characterization (p : Platform)
    (ssa : HaveSigaction.State) (ssig : NoSigaction.State) (sig : Int)
    (e : String) (hv : p.validSig sig = true)
    (hd : ssig.dispositions sig ≠ SIG_ERR) :
    HaveSigaction.MR_get_signal_action p ssa sig e = .ok ssa (ssa.dispositions sig)
    ∧ NoSigaction.MR_get_signal_action p ssig sig e =
        .ok { ssig with dispositions := fun x => if x = sig then 0 else ssig.dispositions x }
          (ssig.dispositions sig) := by
  constructor
  · simp [HaveSigaction.MR_get_signal_action, hv]
  · simp [NoSigaction.MR_get_signal_action, NoSigaction.signal_call, hv, hd]

/-- Witness for C2's amended theorem at a concrete platform and states. -/
theorem get_signal_action_characterization_witness :
    (p0.validSig 2 = true ∧ sigS0.dispositions 2 ≠ SIG_ERR)
    ∧ HaveSigaction.MR_get_signal_action p0 saS0 2 "ctx" =
        .ok saS0 (saS0.dispositions 2)
    ∧ NoSigaction.MR_get_signal_action p0 sigS0 2 "ctx" =
        .ok { sigS0 with dispositions := fun x => if x = 2 then 0 else sigS0.dispositions x }
          (sigS0.dispositions 2) :=
  ⟨⟨by decide, by decide⟩,
    get_signal_action_characterization p0 saS0 sigS0 2 "ctx" (by decide) (by decide)⟩

/-- C3: after a successful `MR_setup_signal` with `need_info = false` (the
spec's `install(s, h, false, true, _)`), `MR_get_signal_action` succeeds and
returns a descriptor whose handler reference equals `h`, on both
facilities. -/
theorem install_then_get_returns_handler (p : Platform)
    (ssa : HaveSigaction.State) (ssig : NoSigaction.State) (sig : Int)
    (h : MR_Code) (e1 e2 : String) (hv : p.validSig sig = true)
    (hm : p.sigemptysetOk = true) (h0 : h ≠ 0) (herr : h ≠ SIG_ERR)
    (hd : ssig.dispositions sig ≠ SIG_ERR) :
    Outcome.succeedsWith (HaveSigaction.MR_setup_signal p ssa sig h false e1)
      (fun s1 _ =>
        Outcome.succeedsWith (HaveSigaction.MR_get_signal_action p s1 sig e2)
          (fun _ act => act.MR_SIGACTION_FIELD = h))
    ∧ Outcome.succeedsWith (NoSigaction.MR_setup_signal p ssig sig h false e1)
      (fun s1 _ =>
        Outcome.succeedsWith (NoSigaction.MR_get_signal_action p s1 sig e2)
          (fun _ act => act = h)) := by
  constructor
  · simp [HaveSigaction.MR_setup_signal, HaveSigaction.MR_do_setup_signal, hm,
      HaveSigaction.MR_set_signal_action, HaveSigaction.MR_get_signal_action,
      hv, Outcome.succeedsWith]
  · simp [NoSigaction.MR_setup_signal, NoSigaction.MR_do_setup_signal,
      NoSigaction.MR_set_signal_action, NoSigaction.MR_get_signal_action,
      NoSigaction.signal_call, hv, hd, herr, Outcome.succeedsWith]

/-- Witness for C3 at a concrete platform and states. -/
theorem install_then_get_returns_handler_witness :
    (p0.validSig 2 = true ∧ p0.sigemptysetOk = true ∧ (42 : MR_Code) ≠ 0
      ∧ (42 : MR_Code) ≠ SIG_ERR ∧ sigS0.dispositions 2 ≠ SIG_ERR)
    ∧ Outcome.succeedsWith (HaveSigaction.MR_setup_signal p0 saS0 2 42 false "e1")
      (fun s1 _ =>
        Outcome.succeedsWith (HaveSigaction.MR_get_signal_action p0 s1 2 "e2")
          (fun _ act => act.MR_SIGACTION_FIELD = 42))
    ∧ Outcome.succeedsWith (NoSigaction.MR_setup_signal p0 sigS0 2 42 false "e1")
      (fun s1 _ =>
        Outcome.succeedsWith (NoSigaction.MR_get_signal_action p0 s1 2 "e2")
          (fun _ act => act = 42)) :=
  ⟨⟨by decide, by decide, by decide, by decide, by decide⟩,
    (install_then_get_returns_handler p0 saS0 sigS0 2 42 "e1" "e2" (by decide)
      (by decide) (by decide) (by decide) (by decide)).1,
    (install_then_get_returns_handler p0 saS0 sigS0 2 42 "e1" "e2" (by decide)
      (by decide) (by decide) (by decide) (by decide)).2⟩

/-- C8: install is idempotent — a second `MR_do_setup_signal` with identical
arguments succeeds and leaves every signal's disposition exactly as after the
first call, on both facilities. -/
theorem install_idempotent (p : Platform) (ssa : HaveSigaction.State)
    (ssig : NoSigaction.State) (sig : Int) (h : MR_Code) (ni r : Bool)
    (e : String) (hv : p.validSig sig = true) (hm : p.sigemptysetOk = true)
    (herr : h ≠ SIG_ERR) (hd : ssig.dispositions sig ≠ SIG_ERR) :
    Outcome.succeedsWith (HaveSigaction.MR_do_setup_signal p ssa sig h ni r e)
      (fun s1 _ =>
        Outcome.succeedsWith (HaveSigaction.MR_do_setup_signal p s1 sig h ni r e)
          (fun s2 _ => ∀ x, s2.dispositions x = s1.dispositions x))
    ∧ Outcome.succeedsWith (NoSigaction.MR_do_setup_signal p ssig sig h ni r e)
      (fun s1 _ =>
        Outcome.succeedsWith (NoSigaction.MR_do_setup_signal p s1 sig h ni r e)
          (fun s2 _ => ∀ x, s2.dispositions x = s1.dispositions x)) := by
  constructor
  · simp only [HaveSigaction.MR_do_setup_signal, HaveSigaction.MR_set_signal_action,
      hm, hv, if_true, Outcome.succeedsWith]
    intro x
    by_cases hx : x = sig <;> simp [hx]
  · simp only [NoSigaction.MR_do_setup_signal, NoSigaction.MR_set_signal_action,
      NoSigaction.signal_call, hv, if_true, Outcome.succeedsWith]
    rw [if_neg hd]
    simp only [Outcome.succeedsWith]
    rw [if_neg (by simpa using herr)]
    simp only [Outcome.succeedsWith]
    intro x
    by_cases hx : x = sig <;> simp [hx]

/-- Witness for C8 at a concrete platform and states. -/
theorem install_idempotent_witness :
    (p0.validSig 2 = true ∧ p0.sigemptysetOk = true ∧ (42 : MR_Code) ≠ SIG_ERR
      ∧ sigS0.dispositions 2 ≠ SIG_ERR)
    ∧ Outcome.succeedsWith (HaveSigaction.MR_do_setup_signal p0 saS0 2 42 true true "e")
      (fun s1 _ =>
        Outcome.succeedsWith (HaveSigaction.MR_do_setup_signal p0 s1 2 42 true true "e")
          (fun s2 _ => ∀ x, s2.dispositions x = s1.dispositions x))
    ∧ Outcome.succeedsWith (NoSigaction.MR_do_setup_signal p0 sigS0 2 42 true true "e")
      (fun s1 _ =>
        Outcome.succeedsWith (NoSigaction.MR_do_setup_signal p0 s1 2 42 true true "e")
          (fun s2 _ => ∀ x, s2.dispositions x = s1.dispositions x)) :=
  ⟨⟨by decide, by decide, by decide, by decide⟩,
    (install_idempotent p0 saS0 sigS0 2 42 true true "e" (by decide) (by decide)
      (by decide) (by decide)).1,
    (install_idempotent p0 saS0 sigS0 2 42 true true "e" (by decide) (by decide)
      (by decide) (by decide)).2⟩
